import Mathlib

set_option maxRecDepth 40000

/-
Shallow embedding of the SECS-Sim scenario execution engine
(src/App.tsx together with the type declarations and the static
scenario/mock-response catalog of the repository).

Message bodies are declared in the source as plain JSON-like trees of
strings, integers, arrays and objects; `Json` below mirrors exactly that
fragment (the catalog and every body the engine builds use nothing else,
in particular no booleans, nulls or fractional numbers).  `JSON.stringify`,
`JSON.parse` and the global-regex string replacement of `resolveBody` are
embedded as executable functions; recursion is fuel-bounded (the fuel is
always sufficient for the inputs handed to the wrappers) so that every
definition reduces inside the kernel.
-/

inductive Json where
  | str : String → Json
  | num : Int → Json
  | arr : List Json → Json
  | obj : List (String × Json) → Json

/-- `JSON.stringify` escaping for the characters that can occur in this
program's data: a double quote and a backslash are escaped, every other
character is emitted verbatim (no control characters occur). -/
def escapeJsonChar (c : Char) : String :=
  if c = '"' then "\\\"" else if c = '\\' then "\\\\" else String.singleton c

def escapeJson (s : String) : String :=
  String.join (s.toList.map escapeJsonChar)

mutual
/-- `JSON.stringify` with compact separators, as the default
`JSON.stringify(body)` call in `resolveBody` produces. -/
def Json.stringify : Json → String
  | .str s => "\"" ++ escapeJson s ++ "\""
  | .num n => toString n
  | .arr xs => "[" ++ Json.stringifyElems xs ++ "]"
  | .obj kvs => "\x7b" ++ Json.stringifyProps kvs ++ "\x7d"

def Json.stringifyElems : List Json → String
  | [] => ""
  | [x] => Json.stringify x
  | x :: y :: xs => Json.stringify x ++ "," ++ Json.stringifyElems (y :: xs)

def Json.stringifyProps : List (String × Json) → String
  | [] => ""
  | [(k, v)] => "\"" ++ escapeJson k ++ "\":" ++ Json.stringify v
  | (k, v) :: p :: xs =>
      "\"" ++ escapeJson k ++ "\":" ++ Json.stringify v ++ "," ++ Json.stringifyProps (p :: xs)
end

/-- Whitespace skipping of `JSON.parse`. -/
def skipWs : List Char → List Char
  | c :: cs => if c = ' ' || c = '\n' || c = '\t' || c = '\r' then skipWs cs else c :: cs
  | [] => []

/-- Body of a JSON string literal, after the opening quote: reads until the
closing quote, decoding the escape sequences; an invalid escape or a missing
closing quote is a parse failure. -/
def parseStringBody : List Char → Option (String × List Char)
  | [] => none
  | '"' :: cs => some ("", cs)
  | '\\' :: e :: cs =>
      let d : Option Char :=
        if e = '"' then some '"'
        else if e = '\\' then some '\\'
        else if e = '/' then some '/'
        else if e = 'n' then some '\n'
        else if e = 't' then some '\t'
        else if e = 'r' then some '\r'
        else none
      match d with
      | some d => (parseStringBody cs).map (fun r => (String.singleton d ++ r.1, r.2))
      | none => none
  | c :: cs => (parseStringBody cs).map (fun r => (String.singleton c ++ r.1, r.2))

def digitVal (c : Char) : Nat := c.toNat - 48

def parseDigitsAux (acc : Nat) : List Char → Nat × List Char
  | c :: cs => if c.isDigit then parseDigitsAux (acc * 10 + digitVal c) cs else (acc, c :: cs)
  | [] => (acc, [])

/-- Integer literals, the numeric fragment this program's data uses
(the catalog and the engine produce no fractional or exponent numbers). -/
def parseNumberChars : List Char → Option (Int × List Char)
  | '-' :: c :: cs =>
      if c.isDigit then
        let r := parseDigitsAux (digitVal c) cs
        some (-(r.1 : Int), r.2)
      else none
  | c :: cs =>
      if c.isDigit then
        let r := parseDigitsAux (digitVal c) cs
        some ((r.1 : Int), r.2)
      else none
  | [] => none

/-- Fuel-indexed family of the three mutually recursive productions of
`JSON.parse`: a value, the element list of a non-empty array, and the
member list of a non-empty object.  Recursion through the fuel keeps every
definition structurally recursive, hence kernel-reducible. -/
def jsonParseFns : Nat →
    ((List Char → Option (Json × List Char)) ×
     (List Char → Option (List Json × List Char)) ×
     (List Char → Option (List (String × Json) × List Char)))
  | 0 => (fun _ => none, fun _ => none, fun _ => none)
  | fuel + 1 =>
    let prev := jsonParseFns fuel
    let pValue : List Char → Option (Json × List Char) := fun cs =>
      match skipWs cs with
      | '"' :: rest => (parseStringBody rest).map (fun r => (Json.str r.1, r.2))
      | '[' :: rest =>
          match skipWs rest with
          | ']' :: rest2 => some (Json.arr [], rest2)
          | rest2 => (prev.2.1 rest2).map (fun r => (Json.arr r.1, r.2))
      | '\x7b' :: rest =>
          match skipWs rest with
          | '\x7d' :: rest2 => some (Json.obj [], rest2)
          | rest2 => (prev.2.2 rest2).map (fun r => (Json.obj r.1, r.2))
      | rest => (parseNumberChars rest).map (fun r => (Json.num r.1, r.2))
    let pElems : List Char → Option (List Json × List Char) := fun cs =>
      match prev.1 cs with
      | none => none
      | some (j, rest) =>
          match skipWs rest with
          | ',' :: rest2 => (prev.2.1 rest2).map (fun r => (j :: r.1, r.2))
          | ']' :: rest2 => some ([j], rest2)
          | _ => none
    let pProps : List Char → Option (List (String × Json) × List Char) := fun cs =>
      match skipWs cs with
      | '"' :: rest =>
          match parseStringBody rest with
          | none => none
          | some (k, rest1) =>
              match skipWs rest1 with
              | ':' :: rest2 =>
                  match prev.1 rest2 with
                  | none => none
                  | some (v, rest3) =>
                      match skipWs rest3 with
                      | ',' :: rest4 => (prev.2.2 rest4).map (fun r => ((k, v) :: r.1, r.2))
                      | '\x7d' :: rest4 => some ([(k, v)], rest4)
                      | _ => none
              | _ => none
      | _ => none
    (pValue, pElems, pProps)

/-- `JSON.parse`: a single value followed only by whitespace; anything else
throws in the source, modelled as `none`. -/
def Json.parseChars (cs : List Char) : Option Json :=
  match (jsonParseFns (2 * cs.length + 4)).1 cs with
  | some (j, rest) =>
      match skipWs rest with
      | [] => some j
      | _ => none
  | none => none

def Json.parse (s : String) : Option Json := Json.parseChars s.toList

/-- `pat` is a prefix of the second list. -/
def startsWithChars : List Char → List Char → Bool
  | [], _ => true
  | _ :: _, [] => false
  | p :: ps, c :: cs => p == c && startsWithChars ps cs

/-- `sub` occurs somewhere in `s`. -/
def containsChars (s sub : List Char) : Bool :=
  match s with
  | [] => sub.isEmpty
  | _ :: cs => startsWithChars sub s || containsChars cs sub

/-- One pass of `String.prototype.replace` with a global literal pattern:
scans left to right, replaces each non-overlapping occurrence, and does not
rescan the replacement text within the same pass. -/
def replaceAllF : Nat → List Char → List Char → List Char → List Char
  | 0, _, _, s => s
  | _ + 1, _, _, [] => []
  | fuel + 1, pat, rep, c :: cs =>
      if !pat.isEmpty && startsWithChars pat (c :: cs) then
        rep ++ replaceAllF fuel pat rep ((c :: cs).drop pat.length)
      else
        c :: replaceAllF fuel pat rep cs

def replaceAll (pat rep s : List Char) : List Char := replaceAllF s.length pat rep s

/-- The literal pattern `new RegExp("\x7b\x7b" + key + "\x7d\x7d", "g")`
built in `resolveBody` (the catalog's keys contain no regex metacharacters,
so the regex matches the literal placeholder text). -/
def placeholderPat (k : String) : String := "\x7b\x7b" ++ k ++ "\x7d\x7d"

/-- JavaScript falsiness on this `Json` fragment, for the `if (!body)`
guard of `resolveBody`: the number `0` and the empty string are falsy,
every array and object is truthy. -/
def jsFalsy : Json → Bool
  | .num 0 => true
  | .str "" => true
  | _ => false

/-- `resolveBody` from `runScenario` (src/App.tsx): serialize the body,
textually replace every `\x7b\x7bkey\x7d\x7d` occurrence for each entry of
the parameter map in order, then reparse; a reparse failure (the `JSON.parse`
throw, caught by the caller) is `none`. -/
def resolveBody (paramValues : List (String × String)) (body : Json) : Option Json :=
  if jsFalsy body then some body
  else
    let cs := (Json.stringify body).toList
    let cs := paramValues.foldl
      (fun s kv => replaceAll (placeholderPat kv.1).toList kv.2.toList s) cs
    Json.parseChars cs

/- ===== Data model (the repository's type declarations) ===== -/

inductive MessageDirection where
  | hostToEqp
  | eqpToHost
  | info
  | error
deriving DecidableEq

structure LogEntry where
  direction : MessageDirection
  summary : String
  detail : Json
  type : String

inductive ParameterType where
  | STRING
  | NUMBER
  | ENUM
deriving DecidableEq

structure ScenarioParameter where
  key : String
  label : String
  defaultValue : String
  description : Option String := none
  type : Option ParameterType := none
  options : Option (List String) := none
  min : Option Int := none
  max : Option Int := none

structure SecsMessage where
  stream : Nat
  function : Nat
  waitBit : Bool
  name : String
  body : Json

structure TestStep where
  name : String
  description : String
  messageToSend : SecsMessage
  expectedResponseSxFy : Option String := none
  simulateDelay : Option Nat := none
  timeout : Option Nat := none

inductive StandardType where
  | E9
  | E142
  | GENERIC
deriving DecidableEq

structure TestScenario where
  id : String
  title : String
  standard : StandardType
  description : String
  parameters : Option (List ScenarioParameter) := none
  steps : List TestStep

structure TestResult where
  scenarioId : String
  passed : Bool
  notes : String

/-
The source's `LogEntry.id` (a random identifier) and the `timestamp` fields
of `LogEntry`/`TestResult` (wall-clock `new Date()`) are nondeterministic
environment inputs and are omitted from the embedding; no claim depends on
their values.  `LogEntry.type` is one of the literals
"success" | "info" | "error" | "warning" as in the source union type.
-/

/-- Association-list lookup standing for a JavaScript object property read. -/
def lookupEntry {α : Type} (m : List (String × α)) (k : String) : Option α :=
  (m.find? (fun kv => kv.1 == k)).map (·.2)

/-- Property write `obj[k] = v` preserving key insertion order. -/
def upsertKey (m : List (String × String)) (k v : String) : List (String × String) :=
  if (m.find? (fun kv => kv.1 == k)).isSome then
    m.map (fun kv => if kv.1 == k then (k, v) else kv)
  else m ++ [(k, v)]

/-- Property delete `delete obj[k]`. -/
def removeKey (m : List (String × String)) (k : String) : List (String × String) :=
  m.filter (fun kv => kv.1 != k)

/- ===== Parameter validation (validateParameter, src/App.tsx) ===== -/

def digitsToNat (cs : List Char) : Nat := cs.foldl (fun a c => a * 10 + digitVal c) 0

/-- The result of the ECMAScript `ToNumber` conversion of a string, short of
NaN (NaN is the `none` of `jsNumber` below): a finite value — every finite
`ToNumber` result of a string is a decimal fraction, held exactly as
`num / 10 ^ pow10` — or one of the two infinities.  Exact arithmetic stands
in for IEEE-754 doubles: the conversion's final rounding to the nearest
double is not modelled, which can shift a bound comparison only for inputs
within one double-ulp of the bound (no claim exercises such inputs). -/
inductive JsNum where
  | finite : Int → Nat → JsNum
  | posInf
  | negInf

/-- The WhiteSpace and LineTerminator code points `ToNumber` strips from
both ends of the string. -/
def jsWhitespace (c : Char) : Bool :=
  if c = ' ' ∨ c = '\t' ∨ c = '\n' ∨ c = '\r' ∨ c.toNat = 11 ∨ c.toNat = 12 ∨
      c.toNat = 0xa0 ∨ c.toNat = 0xfeff ∨ c.toNat = 0x1680 ∨
      (0x2000 ≤ c.toNat ∧ c.toNat ≤ 0x200a) ∨ c.toNat = 0x2028 ∨ c.toNat = 0x2029 ∨
      c.toNat = 0x202f ∨ c.toNat = 0x205f ∨ c.toNat = 0x3000 then true else false

def trimJs (cs : List Char) : List Char :=
  ((cs.dropWhile jsWhitespace).reverse.dropWhile jsWhitespace).reverse

def hexDigitVal (c : Char) : Option Nat :=
  if c.isDigit then some (c.toNat - 48)
  else if 97 ≤ c.toNat ∧ c.toNat ≤ 102 then some (c.toNat - 87)
  else if 65 ≤ c.toNat ∧ c.toNat ≤ 70 then some (c.toNat - 55)
  else none

def radixNatAux (radix acc : Nat) : List Char → Option Nat
  | [] => some acc
  | c :: cs =>
      match hexDigitVal c with
      | some d => if d < radix then radixNatAux radix (acc * radix + d) cs else none
      | none => none

/-- The digits of a binary/octal/hex integer literal: at least one digit,
all valid for the radix. -/
def radixNat (radix : Nat) : List Char → Option Nat
  | [] => none
  | cs => radixNatAux radix 0 cs

def takeDigits (cs : List Char) : List Char × List Char :=
  (cs.takeWhile Char.isDigit, cs.dropWhile Char.isDigit)

/-- A signed digit sequence, as the exponent part allows. -/
def parseSignedDigits : List Char → Option Int
  | '+' :: cs => if !cs.isEmpty && cs.all Char.isDigit then some (digitsToNat cs) else none
  | '-' :: cs =>
      if !cs.isEmpty && cs.all Char.isDigit then some (-(digitsToNat cs : Int)) else none
  | cs => if !cs.isEmpty && cs.all Char.isDigit then some (digitsToNat cs) else none

/-- The optional ExponentPart closing a decimal literal: nothing left means
exponent 0; otherwise `e`/`E` followed by optionally signed digits. -/
def parseExponentPart : List Char → Option Int
  | [] => some 0
  | 'e' :: rest => parseSignedDigits rest
  | 'E' :: rest => parseSignedDigits rest
  | _ => none

/-- `sign * mant * 10 ^ shift` as an exact `JsNum`. -/
def decimalJsNum (sign : Int) (mant : Nat) (shift : Int) : JsNum :=
  match shift with
  | .ofNat k => .finite (sign * (mant * 10 ^ k : Nat)) 0
  | .negSucc k => .finite (sign * mant) (k + 1)

/-- StrUnsignedDecimalLiteral: `digits [. digits] [exp]` or `. digits [exp]`
(the whole rest of the string must be consumed; anything else is NaN). -/
def parseUnsignedDecimal (sign : Int) (cs : List Char) : Option JsNum :=
  let ipr := takeDigits cs
  match ipr.2 with
  | '.' :: r2 =>
      let fpr := takeDigits r2
      if ipr.1.isEmpty && fpr.1.isEmpty then none
      else
        (parseExponentPart fpr.2).map (fun e =>
          decimalJsNum sign (digitsToNat (ipr.1 ++ fpr.1)) (e - fpr.1.length))
  | r1 =>
      if ipr.1.isEmpty then none
      else (parseExponentPart r1).map (fun e => decimalJsNum sign (digitsToNat ipr.1) e)

def infinityChars : List Char := ['I', 'n', 'f', 'i', 'n', 'i', 't', 'y']

def parseSignedJsNum (sign : Int) (cs : List Char) : Option JsNum :=
  if cs = infinityChars then some (if sign < 0 then .negInf else .posInf)
  else parseUnsignedDecimal sign cs

/-- `Number(value)` on strings (ECMAScript `ToNumber`): trim whitespace; an
empty remainder is 0; a `0x`/`0o`/`0b` prefix starts an unsigned radix
integer literal (no sign allowed there); otherwise an optionally signed
`Infinity` or decimal literal with optional fraction and exponent; anything
else is NaN (`none`). -/
def jsNumber (s : String) : Option JsNum :=
  match trimJs s.toList with
  | [] => some (.finite 0 0)
  | '0' :: 'x' :: rest => (radixNat 16 rest).map (fun n => .finite n 0)
  | '0' :: 'X' :: rest => (radixNat 16 rest).map (fun n => .finite n 0)
  | '0' :: 'o' :: rest => (radixNat 8 rest).map (fun n => .finite n 0)
  | '0' :: 'O' :: rest => (radixNat 8 rest).map (fun n => .finite n 0)
  | '0' :: 'b' :: rest => (radixNat 2 rest).map (fun n => .finite n 0)
  | '0' :: 'B' :: rest => (radixNat 2 rest).map (fun n => .finite n 0)
  | '+' :: rest => parseSignedJsNum 1 rest
  | '-' :: rest => parseSignedJsNum (-1) rest
  | rest => parseSignedJsNum 1 rest

/-- `num < m` for a bound `m`, by cross-multiplication against the positive
denominator `10 ^ k` (IEEE comparison semantics on ±Infinity). -/
def JsNum.ltInt : JsNum → Int → Bool
  | .finite n k, m => n < m * (10 ^ k : Nat)
  | .posInf, _ => false
  | .negInf, _ => true

/-- `num > m` for a bound `m`. -/
def JsNum.gtInt : JsNum → Int → Bool
  | .finite n k, m => m * (10 ^ k : Nat) < n
  | .posInf, _ => true
  | .negInf, _ => false

/-- The exact rational value of a finite `JsNum` (`none` on ±Infinity);
used only to state properties, never evaluated by the engine. -/
def JsNum.toRat : JsNum → Option ℚ
  | .finite n k => some ((n : ℚ) / (10 : ℚ) ^ k)
  | .posInf => none
  | .negInf => none

/-- `validateParameter` (src/App.tsx): the `!value && value !== '0'` guard
(only the empty string is falsy among strings), then for NUMBER-typed
parameters a NaN check followed by the min and max bound checks in order.
The declared bounds are held as integers, the only kind the catalog
declares. -/
def validateParameter (param : ScenarioParameter) (value : String) : Option String :=
  if value == "" && value != "0" then some "Value is required"
  else if param.type = some ParameterType.NUMBER then
    match jsNumber value with
    | none => some "Must be a number"
    | some num =>
        let maxCheck : Option String :=
          match param.max with
          | some mx => if num.gtInt mx then some ("Max value: " ++ toString mx) else none
          | none => none
        match param.min with
        | some mn => if num.ltInt mn then some ("Min value: " ++ toString mn) else maxCheck
        | none => maxCheck
  else none

/- ===== Step simulation (the body of runScenario's loop, src/App.tsx) ===== -/

/-- The spec's Step Outcome classification.  The source tracks these as the
control-flow branches of `runScenario`: `acknowledged` for the two
equipment-reply branches (oracle hit and generic fallback ack), `timedOut`
for the T3 branch, `malformedTemplate` for the caught `resolveBody` throw,
`noOracleEntry` for a demanded but unmodelled reply, and `noReplyNeeded`
for the neutral no-reply branch. -/
inductive StepOutcome where
  | acknowledged : Json → StepOutcome
  | timedOut
  | malformedTemplate
  | noOracleEntry
  | noReplyNeeded

def outcomeOk : StepOutcome → Bool
  | .acknowledged _ => true
  | .noReplyNeeded => true
  | _ => false

def isMalformed : StepOutcome → Bool
  | .malformedTemplate => true
  | _ => false

def DEFAULT_TIMEOUT : Nat := 10000

def DEFAULT_SIMULATE_DELAY : Nat := 600

def sxfy (m : SecsMessage) : String := "S" ++ toString m.stream ++ "F" ++ toString m.function

def hostLogEntry (m : SecsMessage) (resolvedBody : Json) : LogEntry :=
  { direction := .hostToEqp,
    summary := sxfy m ++ " " ++ m.name ++ " " ++ (if m.waitBit then "[W]" else ""),
    detail := resolvedBody,
    type := "info" }

def t3LogEntry (timeoutMs simulateDelayMs : Nat) : LogEntry :=
  { direction := .error,
    summary := "T3 Timeout: No response received within " ++ toString timeoutMs ++
      "ms (Simulated Delay: " ++ toString simulateDelayMs ++ "ms)",
    detail := Json.obj [],
    type := "error" }

def responseLogEntry (er : String) (payload : Json) : LogEntry :=
  { direction := .eqpToHost, summary := er ++ " Response", detail := payload, type := "success" }

def fallbackAckEntry (er : String) : LogEntry :=
  { direction := .eqpToHost, summary := er ++ " Ack",
    detail := Json.obj [("ACK", Json.num 0)], type := "success" }

def noMockLogEntry (m : SecsMessage) : LogEntry :=
  { direction := .error, summary := "No Mock Response defined for " ++ sxfy m,
    detail := Json.obj [], type := "error" }

/-- The caught-exception log of the resolveBody failure path; the JavaScript
error text `String(e)` is abstracted to a fixed marker. -/
def malformedLogEntry (stepName : String) : LogEntry :=
  { direction := .error, summary := "Failed to parse message body for " ++ stepName,
    detail := Json.obj [("error", Json.str "SyntaxError")], type := "error" }

/-- What one iteration of `runScenario`'s loop produces for its step:
the outcome, the log entries it appends (in order), the duration of the
awaited reply-wait suspension (`replyWaitMs`, the first `setTimeout`:
the timeout budget in the T3 branch, the simulated delay otherwise,
nothing when resolution throws), and the artificial inter-step pause
(`settleMs`: 500 after a T3 timeout, 800 otherwise, none on the abort
path). -/
structure StepRecord where
  outcome : StepOutcome
  logs : List LogEntry
  replyWaitMs : Nat
  settleMs : Nat

def runStep (mocks : List (String × Json)) (pv : List (String × String))
    (step : TestStep) : StepRecord :=
  match resolveBody pv step.messageToSend.body with
  | none =>
      { outcome := .malformedTemplate, logs := [malformedLogEntry step.name],
        replyWaitMs := 0, settleMs := 0 }
  | some msgBody =>
      let msg := step.messageToSend
      let hostLog := hostLogEntry msg msgBody
      let timeoutMs := step.timeout.getD DEFAULT_TIMEOUT
      let simulateDelayMs := step.simulateDelay.getD DEFAULT_SIMULATE_DELAY
      if msg.waitBit ∧ simulateDelayMs > timeoutMs then
        { outcome := .timedOut, logs := [hostLog, t3LogEntry timeoutMs simulateDelayMs],
          replyWaitMs := timeoutMs, settleMs := 500 }
      else
        match step.expectedResponseSxFy with
        | some er =>
            match lookupEntry mocks er with
            | some payload =>
                { outcome := .acknowledged payload,
                  logs := [hostLog, responseLogEntry er payload],
                  replyWaitMs := simulateDelayMs, settleMs := 800 }
            | none =>
                { outcome := .acknowledged (Json.obj [("ACK", Json.num 0)]),
                  logs := [hostLog, fallbackAckEntry er],
                  replyWaitMs := simulateDelayMs, settleMs := 800 }
        | none =>
            if msg.waitBit then
              { outcome := .noOracleEntry, logs := [hostLog, noMockLogEntry msg],
                replyWaitMs := simulateDelayMs, settleMs := 800 }
            else
              { outcome := .noReplyNeeded, logs := [hostLog],
                replyWaitMs := simulateDelayMs, settleMs := 800 }

/- ===== Scenario execution (runScenario, src/App.tsx) ===== -/

/-- The step loop with the mutable `allPassed` flag threaded through:
a resolution failure breaks out of the loop with the flag cleared; a
timeout or a missing mock clears the flag but execution continues. -/
def runStepsAux (mocks : List (String × Json)) (pv : List (String × String)) :
    List TestStep → Bool → List StepRecord × Bool
  | [], acc => ([], acc)
  | step :: rest, acc =>
      let r := runStep mocks pv step
      if isMalformed r.outcome then ([r], false)
      else
        let res := runStepsAux mocks pv rest (if outcomeOk r.outcome then acc else false)
        (r :: res.1, res.2)

def startLogEntry (title : String) : LogEntry :=
  { direction := .info, summary := "Starting Scenario: " ++ title,
    detail := Json.obj [], type := "info" }

def completeLogEntry (allPassed : Bool) : LogEntry :=
  { direction := .info,
    summary := "Scenario Complete: " ++ (if allPassed then "PASSED" else "FAILED"),
    detail := Json.obj [],
    type := if allPassed then "success" else "error" }

structure RunOutput where
  records : List StepRecord
  passed : Bool
  result : TestResult
  logs : List LogEntry

/-- One complete (non-blocked) execution of `runScenario`: walk the steps,
aggregate `allPassed`, build the `TestResult` saved to the history (note the
source fills `scenarioId` with `scenario.title`), and the transcript slice
this run appends: the starting banner, each step's entries in order, and the
completion banner. -/
def runScenarioResult (mocks : List (String × Json)) (pv : List (String × String))
    (scenario : TestScenario) : RunOutput :=
  let res := runStepsAux mocks pv scenario.steps true
  { records := res.1
    passed := res.2
    result :=
      { scenarioId := scenario.title
        passed := res.2
        notes := if res.2 then "All steps completed successfully."
          else "Scenario failed due to errors or timeouts." }
    logs := startLogEntry scenario.title :: (res.1.map (·.logs)).flatten ++
      [completeLogEntry res.2] }


/- ===== The application state and its operations (src/App.tsx) ===== -/

/-- `MOCK_RESPONSES` from the repository's static catalog module: the Reply
Oracle table mapping an expected-response identifier to a canned payload.
Every value is an object, hence truthy, so the source's truthiness test
`MOCK_RESPONSES[expectedResponse]` coincides with presence of the key. -/
def MOCK_RESPONSES : List (String × Json) := [
  ("S1F1", .obj [("MDLN", .str "GEMINI-SIM-TOOL"), ("SOFTREV", .str "1.0.0")]),
  ("S1F13", .obj [("COMMACK", .num 0), ("MDLN", .arr [.str "GEMINI-SIM-TOOL"]),
      ("SOFTREV", .arr [.str "1.0.0"])]),
  ("S1F17", .obj [("ONLACK", .num 0)]),
  ("S2F41", .obj [("HCACK", .num 0), ("CPNAME", .arr []), ("CPACK", .arr [])]),
  ("S12F3", .obj [("SDACK", .num 0)]),
  ("S12F1", .obj [("MID", .str "WAFER_01"), ("IDTYP", .str "WAFER"), ("FNLOC", .num 0),
      ("ORLOC", .num 1), ("RPSEL", .num 0), ("REFP", .arr [.num 0, .num 0]),
      ("DUTMS", .str "mm"), ("XDIUS", .num 300), ("YDIUS", .num 300),
      ("BINLT", .arr [.str "01", .str "02", .str "03"]), ("MLCL", .num 500)]),
  ("S14F2", .obj [("OBJID", .str "WaferMap_01"), ("ATTRID", .arr [.str "BinMap"]),
      ("ATTRDATA", .arr [.str "001001001"])]),
  ("S14F4", .obj [("OBJID", .str "WaferMap_01"), ("ATTRID", .str "BinMap"), ("ERRCODE", .num 0)]),
  ("S14F6", .obj [("OBJID", .str "WaferMap_01"), ("OBJTYPE", .str "SubstrateMap")]),
  ("S14F12", .obj [("OBJID", .str "WaferMap_01"), ("OBJTYPE", .str "SubstrateMap"),
      ("ERRCODE", .num 0),
      ("ATTRID", .arr [.str "BinMap", .str "Layout", .str "DimensionX", .str "DimensionY",
          .str "ProcessState"])]),
  ("S14F14", .obj [("OBJID", .str "WaferMap_01"), ("ATTRID", .arr [.str "ProcessState"]),
      ("RAC", .num 0), ("ERRCODE", .num 0)])
]

/-- The component state of `App` that the claims touch.  The catalog is held
as parsed documents (`List Json`): TypeScript erases the `TestScenario[]`
annotation at run time and the import handler stores whatever array
`JSON.parse` produced, without decoding the records.  The UI-only fields
(`activeTab`, `selectedScenario`, `runningStep`) are not modelled; runs are
atomic operations here, so the `runningStep` re-entrancy guard (which only
rejects a second click mid-run) has no observable effect. -/
structure AppState where
  scenarios : List Json
  logs : List LogEntry
  results : List TestResult
  paramValues : List (String × String)
  validationErrors : List (String × String)

/-- `handleParamChange`: store the edited value, then validate it, writing
or deleting the entry of the validation-error map keyed by the parameter. -/
def handleParamChange (st : AppState) (param : ScenarioParameter) (value : String) : AppState :=
  let st := { st with paramValues := upsertKey st.paramValues param.key value }
  match validateParameter param value with
  | some e => { st with validationErrors := upsertKey st.validationErrors param.key e }
  | none => { st with validationErrors := removeKey st.validationErrors param.key }

/-- The `useEffect` that runs on scenario selection: parameter values reset
to the declared defaults (empty when the scenario declares none), and the
validation-error map is cleared. -/
def selectScenario (st : AppState) (scenario : TestScenario) : AppState :=
  { st with
    paramValues := (scenario.parameters.getD []).foldl
      (fun acc p => upsertKey acc p.key p.defaultValue) []
    validationErrors := [] }

def blockedLogEntry (errors : List (String × String)) : LogEntry :=
  { direction := .error, summary := "Execution Blocked: Fix invalid parameters.",
    detail := Json.obj (errors.map (fun kv => (kv.1, Json.str kv.2))), type := "error" }

/-- `runScenario` as a state transition: blocked entirely when the
validation-error map is non-empty (one error log, no run, no verdict);
otherwise the transcript grows by the run's log slice and the new verdict is
prepended to the history (newest first). -/
def runScenario (st : AppState) (scenario : TestScenario) : AppState :=
  if st.validationErrors.isEmpty then
    let out := runScenarioResult MOCK_RESPONSES st.paramValues scenario
    { st with logs := st.logs ++ out.logs, results := out.result :: st.results }
  else
    { st with logs := st.logs ++ [blockedLogEntry st.validationErrors] }

/-- `clearLogs`: the one bulk-clear handler, wired to the single
"Clear Session" button; it empties the transcript and the verdict history
together. -/
def clearLogs (st : AppState) : AppState :=
  { st with logs := [], results := [] }

def importParseErrorEntry : LogEntry :=
  { direction := .error, summary := "Import failed: Could not parse JSON.",
    detail := Json.obj [("error", Json.str "SyntaxError")], type := "error" }

def importFormatErrorEntry : LogEntry :=
  { direction := .error, summary := "Import failed: Invalid JSON format. Expected an array.",
    detail := Json.obj [], type := "error" }

def importedLogEntry (n : Nat) : LogEntry :=
  { direction := .info, summary := "Imported " ++ toString n ++ " scenarios successfully.",
    detail := Json.obj [], type := "success" }

def exportLogEntry : LogEntry :=
  { direction := .info, summary := "Scenarios exported successfully.",
    detail := Json.obj [], type := "success" }

/-- `handleImportScenarios` on the text read from the chosen file: parse it;
on a parse throw log the parse error; if the result is an array, replace the
catalog wholesale with it (no per-record validation); otherwise log the
format error.  In the two rejection branches the catalog is untouched. -/
def handleImportScenarios (st : AppState) (raw : String) : AppState :=
  match Json.parse raw with
  | some (.arr xs) =>
      { st with scenarios := xs, logs := st.logs ++ [importedLogEntry xs.length] }
  | some _ => { st with logs := st.logs ++ [importFormatErrorEntry] }
  | none => { st with logs := st.logs ++ [importParseErrorEntry] }

/-- The operations the component exposes to its environment. -/
inductive AppOp where
  | select : TestScenario → AppOp
  | paramChange : ScenarioParameter → String → AppOp
  | run : TestScenario → AppOp
  | clear : AppOp
  | importCatalog : String → AppOp
  | exportCatalog : AppOp

def appStep (st : AppState) : AppOp → AppState
  | .select sc => selectScenario st sc
  | .paramChange p v => handleParamChange st p v
  | .run sc => runScenario st sc
  | .clear => clearLogs st
  | .importCatalog raw => handleImportScenarios st raw
  | .exportCatalog => { st with logs := st.logs ++ [exportLogEntry] }

/-- States reachable from app startup: the catalog is whatever was provided
at startup; transcript, history, parameter values and validation errors
start empty. -/
inductive Reachable : AppState → Prop where
  | init (catalog : List Json) :
      Reachable { scenarios := catalog, logs := [], results := [],
                  paramValues := [], validationErrors := [] }
  | step {st : AppState} (op : AppOp) : Reachable st → Reachable (appStep st op)

/- ===== Catalog entries used by the claims (TEST_SCENARIOS) ===== -/

def e9CommEst : TestScenario :=
  { id := "e9-comm-est"
    title := "E9: Establish Communications"
    standard := .E9
    description := "Basic handshake to establish connection using S1F13."
    steps := [
      { name := "Are You There?", description := "Check if equipment is alive.",
        messageToSend :=
          { stream := 1, function := 1, waitBit := true,
            name := "Are You There Request", body := .obj [] },
        expectedResponseSxFy := some "S1F2", timeout := some 5000 },
      { name := "Establish Comm", description := "Request to establish communications.",
        messageToSend :=
          { stream := 1, function := 13, waitBit := true,
            name := "Establish Comm Request", body := .obj [("COMMACK", .num 0)] },
        expectedResponseSxFy := some "S1F14", timeout := some 5000 }
    ] }

def e9Timeout : TestScenario :=
  { id := "e9-timeout"
    title := "E9: Timeout Handling (Negative Test)"
    standard := .E9
    description := "Demonstrates T3 Timeout behavior. The second step is configured to fail (Simulated Delay > Timeout)."
    steps := [
      { name := "Normal Ping",
        description := "Standard latency (500ms). Timeout is 5s. Should Pass.",
        messageToSend :=
          { stream := 1, function := 1, waitBit := true,
            name := "Are You There", body := .obj [] },
        expectedResponseSxFy := some "S1F2", timeout := some 5000,
        simulateDelay := some 500 },
      { name := "Slow Response (Fail)",
        description := "Equipment takes 8s to respond, but Timeout is set to 2s. Should Fail.",
        messageToSend :=
          { stream := 1, function := 13, waitBit := true,
            name := "Establish Comm", body := .obj [("COMMACK", .num 0)] },
        expectedResponseSxFy := some "S1F14", timeout := some 2000,
        simulateDelay := some 8000 }
    ] }

def objidParam : ScenarioParameter :=
  { key := "OBJID", label := "Object ID", defaultValue := "WaferMap_01",
    description := some "Target Object Identifier", type := some .STRING }

def attridParam : ScenarioParameter :=
  { key := "ATTRID", label := "Attribute ID", defaultValue := "BinMap",
    description := some "Attribute to query/set", type := some .STRING }

def newvalParam : ScenarioParameter :=
  { key := "NEWVAL", label := "Set Value", defaultValue := "100",
    description := some "Value for SetAttr (S14F3)", type := some .NUMBER,
    min := some 0, max := some 9999 }

def e142ObjServices : TestScenario :=
  { id := "e142-obj-services"
    title := "E142: Object Services (S14)"
    standard := .E142
    description := "Test Object Services (GetAttr, SetAttr, GetType) with configurable parameters for S14 commands."
    parameters := some [objidParam, attridParam, newvalParam]
    steps := [
      { name := "Get Attribute (S14F1)", description := "Get specified attribute value.",
        messageToSend :=
          { stream := 14, function := 1, waitBit := true, name := "GetAttr",
            body := .obj [("OBJID", .str "\x7b\x7bOBJID\x7d\x7d"),
              ("OBJTYPE", .str "SubstrateMap"),
              ("ATTRID", .arr [.str "\x7b\x7bATTRID\x7d\x7d"])] },
        expectedResponseSxFy := some "S14F2", timeout := some 10000 },
      { name := "Set Attribute (S14F3)", description := "Set specified attribute value.",
        messageToSend :=
          { stream := 14, function := 3, waitBit := true, name := "SetAttr",
            body := .obj [("OBJID", .str "\x7b\x7bOBJID\x7d\x7d"),
              ("OBJTYPE", .str "SubstrateMap"),
              ("ATTRID", .str "\x7b\x7bATTRID\x7d\x7d"),
              ("ATTRDATA", .str "\x7b\x7bNEWVAL\x7d\x7d")] },
        expectedResponseSxFy := some "S14F4", timeout := some 10000 },
      { name := "Get Type (S14F5)", description := "Get type of the object.",
        messageToSend :=
          { stream := 14, function := 5, waitBit := true, name := "GetType",
            body := .obj [("OBJID", .str "\x7b\x7bOBJID\x7d\x7d")] },
        expectedResponseSxFy := some "S14F6", timeout := some 5000 }
    ] }

/- ===== Auxiliary definitions used by the theorems ===== -/

/-- The body of the catalog's "Get Type (S14F5)" step: a single placeholder
inside a string slot. -/
def getTypeBody : Json := Json.obj [("OBJID", Json.str "\x7b\x7bOBJID\x7d\x7d")]

/-- A parsed document has the `TestScenario` record shape of the
repository's type declarations: a string `id`, `title`, `standard` and
`description` and a `steps` array.  The import handler never checks this
shape. -/
def isScenarioRecord : Json → Bool
  | .obj kvs =>
      (match lookupEntry kvs "id" with | some (.str _) => true | _ => false) &&
      (match lookupEntry kvs "title" with | some (.str _) => true | _ => false) &&
      (match lookupEntry kvs "standard" with | some (.str _) => true | _ => false) &&
      (match lookupEntry kvs "description" with | some (.str _) => true | _ => false) &&
      (match lookupEntry kvs "steps" with | some (.arr _) => true | _ => false)
  | _ => false

/-- A step that declares an expected-response id while not requesting a
reply (`waitBit = false`); the shape a catalog author can freely write. -/
def noWaitStep : TestStep :=
  { name := "No Wait Poll"
    description := "Reply-expected = false with a declared response id."
    messageToSend :=
      { stream := 1, function := 1, waitBit := false, name := "Are You There",
        body := .obj [] }
    expectedResponseSxFy := some "S1F2"
    timeout := some 5000 }

def noWaitScenario : TestScenario :=
  { id := "demo-no-wait", title := "No-Wait Demo", standard := .GENERIC,
    description := "Single reply-expected = false step.",
    steps := [noWaitStep] }

/-- A two-step scenario whose first step's template breaks once a parameter
value containing a double quote is substituted (same body shape as the
catalog's parameterised steps). -/
def malformedDemoScenario : TestScenario :=
  { id := "demo-malformed", title := "Malformed Template Demo", standard := .GENERIC,
    description := "Template resolution failure on the first step.",
    parameters := some [objidParam],
    steps := [
      { name := "Bad Step", description := "Placeholder in a string slot.",
        messageToSend :=
          { stream := 14, function := 5, waitBit := true, name := "GetType",
            body := getTypeBody },
        expectedResponseSxFy := some "S14F6", timeout := some 5000 },
      { name := "Never Runs", description := "Second step.",
        messageToSend :=
          { stream := 1, function := 1, waitBit := true, name := "Are You There",
            body := .obj [] },
        expectedResponseSxFy := some "S1F2", timeout := some 5000 }
    ] }

/-- The startup state with an empty catalog (the `Reachable` relation
admits any startup catalog). -/
def emptyStartState : AppState :=
  { scenarios := [], logs := [], results := [], paramValues := [], validationErrors := [] }

/- ===== Engine lemmas ===== -/

theorem runStepsAux_passed_eq (mocks : List (String × Json)) (pv : List (String × String)) :
    ∀ (steps : List TestStep) (acc : Bool),
      (runStepsAux mocks pv steps acc).2 =
        (acc && (runStepsAux mocks pv steps acc).1.all (fun r => outcomeOk r.outcome)) := by
  intro steps
  induction steps with
  | nil => intro acc; simp [runStepsAux]
  | cons s rest ih =>
    intro acc
    simp only [runStepsAux]
    by_cases h : isMalformed (runStep mocks pv s).outcome = true
    · have hok : outcomeOk (runStep mocks pv s).outcome = false := by
        cases hc : (runStep mocks pv s).outcome <;> simp_all [isMalformed, outcomeOk]
      simp [h, hok]
    · have h' : isMalformed (runStep mocks pv s).outcome = false := by
        simpa using h
      simp only [h', if_neg, Bool.false_eq_true, ite_false]
      by_cases hok : outcomeOk (runStep mocks pv s).outcome = true
      · simp [hok, ih]
      · have hok' : outcomeOk (runStep mocks pv s).outcome = false := by simpa using hok
        simp [hok', ih]

theorem runStepsAux_length_eq (mocks : List (String × Json)) (pv : List (String × String)) :
    ∀ (steps : List TestStep) (acc : Bool),
      ((runStepsAux mocks pv steps acc).1.all (fun r => !isMalformed r.outcome)) = true →
      (runStepsAux mocks pv steps acc).1.length = steps.length := by
  intro steps
  induction steps with
  | nil => intro acc _; simp [runStepsAux]
  | cons s rest ih =>
    intro acc hall
    simp only [runStepsAux] at hall ⊢
    by_cases h : isMalformed (runStep mocks pv s).outcome = true
    · simp [h] at hall
    · have h' : isMalformed (runStep mocks pv s).outcome = false := by simpa using h
      simp only [h', Bool.false_eq_true, ite_false] at hall ⊢
      simp only [List.length_cons]
      rw [List.all_cons, Bool.and_eq_true] at hall
      exact congrArg Nat.succ (ih _ hall.2)

theorem runStepsAux_false (mocks : List (String × Json)) (pv : List (String × String))
    (steps : List TestStep) : (runStepsAux mocks pv steps false).2 = false := by
  rw [runStepsAux_passed_eq]; simp

theorem runStep_malformed (mocks : List (String × Json)) (pv : List (String × String))
    (step : TestStep) (hres : resolveBody pv step.messageToSend.body = none) :
    runStep mocks pv step =
      { outcome := .malformedTemplate, logs := [malformedLogEntry step.name],
        replyWaitMs := 0, settleMs := 0 } := by
  simp [runStep, hres]

theorem runStep_timeout (mocks : List (String × Json)) (pv : List (String × String))
    (step : TestStep) (b : Json)
    (hres : resolveBody pv step.messageToSend.body = some b)
    (hw : step.messageToSend.waitBit = true)
    (hd : step.timeout.getD DEFAULT_TIMEOUT < step.simulateDelay.getD DEFAULT_SIMULATE_DELAY) :
    runStep mocks pv step =
      { outcome := .timedOut,
        logs := [hostLogEntry step.messageToSend b,
          t3LogEntry (step.timeout.getD DEFAULT_TIMEOUT)
            (step.simulateDelay.getD DEFAULT_SIMULATE_DELAY)],
        replyWaitMs := step.timeout.getD DEFAULT_TIMEOUT, settleMs := 500 } := by
  simp only [runStep, hres]
  rw [if_pos ⟨hw, hd⟩]

theorem isMalformed_runStep (mocks : List (String × Json)) (pv : List (String × String))
    (step : TestStep) (b : Json)
    (hres : resolveBody pv step.messageToSend.body = some b) :
    isMalformed (runStep mocks pv step).outcome = false := by
  simp only [runStep, hres]
  repeat' split
  all_goals rfl

theorem runStepsAux_t3_false (mocks : List (String × Json)) (pv : List (String × String)) :
    ∀ (steps : List TestStep) (i : Nat) (stepI : TestStep) (acc : Bool),
      steps.get? i = some stepI →
      stepI.messageToSend.waitBit = true →
      stepI.timeout.getD DEFAULT_TIMEOUT < stepI.simulateDelay.getD DEFAULT_SIMULATE_DELAY →
      (runStepsAux mocks pv steps acc).2 = false := by
  intro steps
  induction steps with
  | nil => intro i stepI acc h; simp at h
  | cons s rest ih =>
    intro i stepI acc hget hw hd
    simp only [runStepsAux]
    by_cases hm : isMalformed (runStep mocks pv s).outcome = true
    · simp [hm]
    · have hm' : isMalformed (runStep mocks pv s).outcome = false := by simpa using hm
      simp only [hm', Bool.false_eq_true, ite_false]
      cases i with
      | zero =>
        have hs : s = stepI := by simpa using hget
        subst hs
        cases hres : resolveBody pv s.messageToSend.body with
        | none =>
          rw [runStep_malformed mocks pv s hres] at hm'
          simp [isMalformed] at hm'
        | some b =>
          rw [runStep_timeout mocks pv s b hres hw hd]
          simp [outcomeOk, runStepsAux_false]
      | succ j =>
        have hget' : rest.get? j = some stepI := by simpa using hget
        exact ih j stepI _ hget' hw hd

theorem runStepsAux_malformed_at (mocks : List (String × Json)) (pv : List (String × String)) :
    ∀ (steps : List TestStep) (i : Nat) (stepI : TestStep) (acc : Bool),
      steps.get? i = some stepI →
      (∀ s ∈ steps.take i, resolveBody pv s.messageToSend.body ≠ none) →
      resolveBody pv stepI.messageToSend.body = none →
      (runStepsAux mocks pv steps acc).1.length = i + 1 ∧
      (runStepsAux mocks pv steps acc).1.get? i =
        some { outcome := .malformedTemplate, logs := [malformedLogEntry stepI.name],
               replyWaitMs := 0, settleMs := 0 } ∧
      (runStepsAux mocks pv steps acc).2 = false := by
  intro steps
  induction steps with
  | nil => intro i stepI acc h; simp at h
  | cons s rest ih =>
    intro i stepI acc hget hok hfail
    cases i with
    | zero =>
      have hs : s = stepI := by simpa using hget
      subst hs
      simp only [runStepsAux, runStep_malformed mocks pv s hfail]
      simp [isMalformed]
    | succ j =>
      have hres : resolveBody pv s.messageToSend.body ≠ none := by
        apply hok
        simp [List.take_succ_cons]
      obtain ⟨b, hb⟩ := Option.ne_none_iff_exists'.mp hres
      have hm' : isMalformed (runStep mocks pv s).outcome = false :=
        isMalformed_runStep mocks pv s b hb
      simp only [runStepsAux, hm', Bool.false_eq_true, ite_false]
      have hget' : rest.get? j = some stepI := by simpa using hget
      have hok' : ∀ t ∈ rest.take j, resolveBody pv t.messageToSend.body ≠ none := by
        intro t ht
        apply hok
        simp [List.take_succ_cons, ht]
      have h3 := ih j stepI (outcomeOk (runStep mocks pv s).outcome && acc) hget' hok' hfail
      refine ⟨by simpa using h3.1, by simpa using h3.2.1, by simpa using h3.2.2⟩

/- ===== Substitution and association-list lemmas ===== -/

theorem replaceAllF_of_not_contains (pat rep : List Char) :
    ∀ (s : List Char) (fuel : Nat), containsChars s pat = false →
      replaceAllF fuel pat rep s = s := by
  intro s
  induction s with
  | nil => intro fuel h; cases fuel <;> rfl
  | cons c cs ih =>
    intro fuel h
    simp only [containsChars, Bool.or_eq_false_iff] at h
    cases fuel with
    | zero => rfl
    | succ fuel =>
      simp only [replaceAllF, h.1, Bool.and_false, Bool.false_eq_true, ite_false]
      exact congrArg (c :: ·) (ih fuel h.2)

theorem replaceAll_of_not_contains (pat rep s : List Char)
    (h : containsChars s pat = false) : replaceAll pat rep s = s :=
  replaceAllF_of_not_contains pat rep s s.length h

theorem find?_map_upd (k v : String) :
    ∀ (m : List (String × String)),
      (m.find? (fun kv => kv.1 == k)).isSome = true →
      (m.map (fun kv => if kv.1 == k then (k, v) else kv)).find? (fun kv => kv.1 == k) =
        some (k, v) := by
  intro m
  induction m with
  | nil => intro h; simp at h
  | cons a rest ih =>
    intro h
    by_cases ha : (a.1 == k) = true
    · have hfa : (if (a.1 == k) = true then (k, v) else a) = (k, v) := by simp [ha]
      simp only [List.map_cons, hfa]
      rw [List.find?_cons_of_pos _ (by simp)]
    · have ha' : (a.1 == k) = false := by rwa [Bool.not_eq_true] at ha
      have hrest : (rest.find? (fun kv => kv.1 == k)).isSome = true := by
        simp only [List.find?_cons, ha'] at h
        exact h
      simp only [List.map_cons, List.find?_cons, ha', Bool.false_eq_true, if_false]
      exact ih hrest

theorem lookupEntry_upsertKey (m : List (String × String)) (k v : String) :
    lookupEntry (upsertKey m k v) k = some v := by
  unfold upsertKey
  by_cases h : (m.find? (fun kv => kv.1 == k)).isSome = true
  · rw [if_pos h]
    unfold lookupEntry
    rw [find?_map_upd k v m h]
    rfl
  · rw [if_neg h]
    unfold lookupEntry
    have hnone : m.find? (fun kv => kv.1 == k) = none := by
      cases hf : m.find? (fun kv => kv.1 == k) with
      | none => rfl
      | some x => rw [hf] at h; simp at h
    rw [List.find?_append, hnone]
    simp

/- ===== Claim theorems ===== -/

/-- C1: for every step whose message expects a reply (`waitBit`) and whose
simulated delay exceeds its timeout budget, the engine suspends waiting for
the reply for exactly the timeout budget (not the simulated delay), emits
the T3 reply-timeout error log entry, classifies the step outcome as timed
out, and every run of a scenario containing such a step yields a failed
verdict. -/
theorem C1_reply_timeout_budget (mocks : List (String × Json)) (pv : List (String × String))
    (step : TestStep) (b : Json)
    (hres : resolveBody pv step.messageToSend.body = some b)
    (hw : step.messageToSend.waitBit = true)
    (hd : step.timeout.getD DEFAULT_TIMEOUT < step.simulateDelay.getD DEFAULT_SIMULATE_DELAY) :
    (runStep mocks pv step).outcome = StepOutcome.timedOut ∧
    (runStep mocks pv step).replyWaitMs = step.timeout.getD DEFAULT_TIMEOUT ∧
    (runStep mocks pv step).logs =
      [hostLogEntry step.messageToSend b,
        t3LogEntry (step.timeout.getD DEFAULT_TIMEOUT)
          (step.simulateDelay.getD DEFAULT_SIMULATE_DELAY)] ∧
    (t3LogEntry (step.timeout.getD DEFAULT_TIMEOUT)
        (step.simulateDelay.getD DEFAULT_SIMULATE_DELAY)).direction = MessageDirection.error ∧
    (∀ (scenario : TestScenario) (i : Nat), scenario.steps.get? i = some step →
      (runScenarioResult mocks pv scenario).passed = false ∧
      (runScenarioResult mocks pv scenario).result.passed = false) := by
  have ht := runStep_timeout mocks pv step b hres hw hd
  refine ⟨by rw [ht], by rw [ht], by rw [ht], rfl, ?_⟩
  intro scenario i hi
  have hf := runStepsAux_t3_false mocks pv scenario.steps i step true hi hw hd
  exact ⟨hf, hf⟩

theorem C1_reply_timeout_budget_witness :
    (runScenarioResult MOCK_RESPONSES [] e9Timeout).passed = false ∧
    (runStep MOCK_RESPONSES [] (e9Timeout.steps.getD 1 noWaitStep)).replyWaitMs = 2000 ∧
    (runStep MOCK_RESPONSES [] (e9Timeout.steps.getD 1 noWaitStep)).outcome =
      StepOutcome.timedOut := by
  have h := C1_reply_timeout_budget MOCK_RESPONSES [] (e9Timeout.steps.getD 1 noWaitStep)
    (Json.obj [("COMMACK", Json.num 0)]) rfl rfl (by decide)
  exact ⟨(h.2.2.2.2 e9Timeout 1 rfl).1, h.2.1.trans rfl, h.1⟩

/-- C2: the verdict's passed flag is true iff every recorded step outcome is
acknowledged or neutral; when no recorded outcome is a malformed template
(timed-out and missing-oracle outcomes included), every declared step was
executed; and the saved verdict carries that flag. -/
theorem C2_verdict_aggregation (mocks : List (String × Json)) (pv : List (String × String))
    (scenario : TestScenario) :
    ((runScenarioResult mocks pv scenario).passed = true ↔
      (runScenarioResult mocks pv scenario).records.all (fun r => outcomeOk r.outcome) = true) ∧
    ((runScenarioResult mocks pv scenario).records.all (fun r => !isMalformed r.outcome) = true →
      (runScenarioResult mocks pv scenario).records.length = scenario.steps.length) ∧
    (runScenarioResult mocks pv scenario).result.passed = (runScenarioResult mocks pv scenario).passed := by
  refine ⟨?_, ?_, rfl⟩
  · rw [show (runScenarioResult mocks pv scenario).passed =
        (runStepsAux mocks pv scenario.steps true).2 from rfl,
      show (runScenarioResult mocks pv scenario).records =
        (runStepsAux mocks pv scenario.steps true).1 from rfl,
      runStepsAux_passed_eq]
    simp
  · exact runStepsAux_length_eq mocks pv scenario.steps true

theorem C2_verdict_aggregation_witness :
    (runScenarioResult MOCK_RESPONSES [] e9CommEst).passed = true ∧
    (runScenarioResult MOCK_RESPONSES [] e9CommEst).records.length = 2 ∧
    e9CommEst.steps.length = 2 := by
  have h := C2_verdict_aggregation MOCK_RESPONSES [] e9CommEst
  exact ⟨h.1.mpr rfl, (h.2.1 rfl).trans rfl, rfl⟩

/-- C3: when template resolution of step `i`'s body fails (all earlier steps
having resolved), the run emits the resolution-error log entry for that
step, records a malformed-template outcome there, marks the scenario
failed, and executes no step after `i`. -/
theorem C3_malformed_template_aborts (mocks : List (String × Json)) (pv : List (String × String))
    (scenario : TestScenario) (i : Nat) (stepI : TestStep)
    (hget : scenario.steps.get? i = some stepI)
    (hok : ∀ s ∈ scenario.steps.take i, resolveBody pv s.messageToSend.body ≠ none)
    (hfail : resolveBody pv stepI.messageToSend.body = none) :
    (runScenarioResult mocks pv scenario).records.length = i + 1 ∧
    (runScenarioResult mocks pv scenario).records.get? i =
      some { outcome := StepOutcome.malformedTemplate,
             logs := [malformedLogEntry stepI.name], replyWaitMs := 0, settleMs := 0 } ∧
    (malformedLogEntry stepI.name).direction = MessageDirection.error ∧
    (runScenarioResult mocks pv scenario).passed = false ∧
    (runScenarioResult mocks pv scenario).result.passed = false := by
  have h := runStepsAux_malformed_at mocks pv scenario.steps i stepI true hget hok hfail
  exact ⟨h.1, h.2.1, rfl, h.2.2, h.2.2⟩

theorem C3_malformed_template_aborts_witness :
    (runScenarioResult MOCK_RESPONSES [("OBJID", "X\"")] malformedDemoScenario).records.length = 1 ∧
    (runScenarioResult MOCK_RESPONSES [("OBJID", "X\"")] malformedDemoScenario).passed = false ∧
    malformedDemoScenario.steps.length = 2 := by
  have h := C3_malformed_template_aborts MOCK_RESPONSES [("OBJID", "X\"")] malformedDemoScenario
    0 (malformedDemoScenario.steps.getD 0 noWaitStep) rfl (by intro s hs; simp at hs) rfl
  exact ⟨h.1, h.2.2.2.1, rfl⟩

/-- C4 counterexample: the catalog's "Get Type (S14F5)" body contains the
`OBJID` placeholder; resolving it against the empty parameter map (no entry
for `OBJID`) succeeds — returning the body with the placeholder text
intact — instead of failing as a malformed template. -/
theorem C4_counterexample :
    containsChars (Json.stringify getTypeBody).toList (placeholderPat "OBJID").toList = true ∧
    resolveBody [] getTypeBody = some getTypeBody ∧
    (e142ObjServices.steps.getD 2 noWaitStep).messageToSend.body = getTypeBody :=
  ⟨rfl, rfl, rfl⟩

/-- C4 amended: substitution touches only occurrences of placeholders whose
keys are in the parameter map — text containing no occurrence of a pattern
is returned unchanged — so a placeholder whose key has no map entry survives
verbatim and resolution still succeeds whenever the substituted text
reparses, while a key that is present is substituted away. -/
theorem C4_amended (pat rep s : List Char) (h : containsChars s pat = false) :
    replaceAll pat rep s = s ∧
    resolveBody [] getTypeBody = some getTypeBody ∧
    resolveBody [("OBJID", "WaferMap_01")] getTypeBody =
      some (Json.obj [("OBJID", Json.str "WaferMap_01")]) ∧
    containsChars (Json.stringify (Json.obj [("OBJID", Json.str "WaferMap_01")])).toList
      (placeholderPat "OBJID").toList = false :=
  ⟨replaceAll_of_not_contains pat rep s h, rfl, rfl, rfl⟩

theorem C4_amended_witness :
    replaceAll "zz".toList "y".toList "abc".toList = "abc".toList ∧
    resolveBody [] getTypeBody = some getTypeBody :=
  ⟨(C4_amended "zz".toList "y".toList "abc".toList rfl).1,
   (C4_amended "zz".toList "y".toList "abc".toList rfl).2.1⟩

/-- C5 counterexample: importing the payload "[42]" — an array that is not a
collection of Scenario records — replaces the catalog with it anyway: the
handler validates only that the parsed payload is an array. -/
theorem C5_counterexample :
    (handleImportScenarios
      { scenarios := [Json.str "previous"], logs := [], results := [],
        paramValues := [], validationErrors := [] } "[42]").scenarios = [Json.num 42] ∧
    isScenarioRecord (Json.num 42) = false := ⟨rfl, rfl⟩

/-- C5 amended: the import accepts exactly the payloads that parse as a JSON
array — replacing the catalog wholesale with the parsed elements, with no
per-record validation — and rejects unparseable and non-array payloads with
an error log entry, leaving the previous catalog (and the verdict history)
entirely unchanged. -/
theorem C5_amended (st : AppState) (raw : String) :
    (∀ xs, Json.parse raw = some (Json.arr xs) →
      (handleImportScenarios st raw).scenarios = xs ∧
      (handleImportScenarios st raw).logs = st.logs ++ [importedLogEntry xs.length] ∧
      (handleImportScenarios st raw).results = st.results) ∧
    (Json.parse raw = none →
      (handleImportScenarios st raw).scenarios = st.scenarios ∧
      (handleImportScenarios st raw).logs = st.logs ++ [importParseErrorEntry] ∧
      (handleImportScenarios st raw).results = st.results) ∧
    (∀ j, Json.parse raw = some j → (∀ xs, j ≠ Json.arr xs) →
      (handleImportScenarios st raw).scenarios = st.scenarios ∧
      (handleImportScenarios st raw).logs = st.logs ++ [importFormatErrorEntry] ∧
      (handleImportScenarios st raw).results = st.results) := by
  refine ⟨?_, ?_, ?_⟩
  · intro xs hx
    unfold handleImportScenarios
    rw [hx]
    exact ⟨rfl, rfl, rfl⟩
  · intro hx
    unfold handleImportScenarios
    rw [hx]
    exact ⟨rfl, rfl, rfl⟩
  · intro j hx hne
    unfold handleImportScenarios
    rw [hx]
    cases j with
    | arr xs => exact absurd rfl (hne xs)
    | str s => exact ⟨rfl, rfl, rfl⟩
    | num n => exact ⟨rfl, rfl, rfl⟩
    | obj kvs => exact ⟨rfl, rfl, rfl⟩

theorem C5_amended_witness :
    (handleImportScenarios
      { scenarios := [Json.str "previous"], logs := [], results := [],
        paramValues := [], validationErrors := [] } "[42]").scenarios = [Json.num 42] ∧
    (handleImportScenarios
      { scenarios := [Json.str "previous"], logs := [], results := [],
        paramValues := [], validationErrors := [] } "nope").scenarios = [Json.str "previous"] ∧
    (handleImportScenarios
      { scenarios := [Json.str "previous"], logs := [], results := [],
        paramValues := [], validationErrors := [] } "5").scenarios = [Json.str "previous"] :=
  ⟨((C5_amended _ "[42]").1 [Json.num 42] rfl).1,
   ((C5_amended _ "nope").2.1 rfl).1,
   ((C5_amended _ "5").2.2 (Json.num 5) rfl (fun _ h => Json.noConfusion h)).1⟩

theorem jsNum_ltInt_false (n : Int) (k : Nat) (m : Int) :
    ((JsNum.finite n k).ltInt m = false) ↔ ((m : ℚ) ≤ (n : ℚ) / (10 : ℚ) ^ k) := by
  rw [le_div_iff₀ (by positivity)]
  simp only [JsNum.ltInt, decide_eq_false_iff_not, Int.not_lt]
  rw [show ((10 : ℚ) ^ k) = (((10 ^ k : Nat) : Int) : ℚ) by push_cast; ring]
  rw [← Int.cast_mul, Int.cast_le]

theorem jsNum_gtInt_false (n : Int) (k : Nat) (m : Int) :
    ((JsNum.finite n k).gtInt m = false) ↔ ((n : ℚ) / (10 : ℚ) ^ k ≤ (m : ℚ)) := by
  rw [div_le_iff₀ (by positivity)]
  simp only [JsNum.gtInt, decide_eq_false_iff_not, Int.not_lt]
  rw [show ((10 : ℚ) ^ k) = (((10 ^ k : Nat) : Int) : ℚ) by push_cast; ring]
  rw [← Int.cast_mul, Int.cast_le]

/-- C6: for a numeric parameter with both bounds declared, validation
accepts exactly the non-empty values that convert to a (finite) number
whose exact value lies within [min, max] inclusive; and for the catalog's
NEWVAL declaration (min 0, max 9999) the value "-1" produces the
bound-specific error stored under the key NEWVAL while "100" validates
cleanly. -/
theorem C6_numeric_validation :
    (∀ (key label dv : String) (descr : Option String) (opts : Option (List String))
       (mn mx : Int) (value : String),
      validateParameter
          { key := key, label := label, defaultValue := dv, description := descr,
            type := some ParameterType.NUMBER, options := opts,
            min := some mn, max := some mx } value = none ↔
        (value ≠ "" ∧ ∃ x, jsNumber value = some x ∧
          ∃ q, JsNum.toRat x = some q ∧ (mn : ℚ) ≤ q ∧ q ≤ (mx : ℚ))) ∧
    validateParameter newvalParam "-1" = some "Min value: 0" ∧
    validateParameter newvalParam "100" = none ∧
    (∀ st : AppState,
      lookupEntry (handleParamChange st newvalParam "-1").validationErrors "NEWVAL" =
        some "Min value: 0") := by
  refine ⟨?_, rfl, rfl, ?_⟩
  · intro key label dv descr opts mn mx value
    by_cases hv : value = ""
    · subst hv
      simp [validateParameter]
    · have hbe : (value == "") = false := by simpa using hv
      cases hn : jsNumber value with
      | none => simp [validateParameter, hbe, hn, hv]
      | some x =>
        cases x with
        | finite n k =>
          simp only [validateParameter, hbe, Bool.false_and, Bool.false_eq_true, ite_false, hn]
          by_cases h1 : (JsNum.finite n k).ltInt mn = true
          · have h1' : ¬ ((mn : ℚ) ≤ (n : ℚ) / (10 : ℚ) ^ k) := by
              rw [← jsNum_ltInt_false]
              simp [h1]
            simp [h1, hv, hn, JsNum.toRat]
            intro hle
            exact absurd hle h1'
          · have h1f : (JsNum.finite n k).ltInt mn = false := by simpa using h1
            by_cases h2 : (JsNum.finite n k).gtInt mx = true
            · have h2' : ¬ ((n : ℚ) / (10 : ℚ) ^ k ≤ (mx : ℚ)) := by
                rw [← jsNum_gtInt_false]
                simp [h2]
              simp [h1f, h2, hv, hn, JsNum.toRat]
              exact fun _ => not_le.mp h2'
            · have h2f : (JsNum.finite n k).gtInt mx = false := by simpa using h2
              simp only [h1f, h2f, Bool.false_eq_true, ite_false]
              simp [hv, hn, JsNum.toRat]
              exact ⟨(jsNum_ltInt_false n k mn).mp h1f, (jsNum_gtInt_false n k mx).mp h2f⟩
        | posInf =>
          simp [validateParameter, hbe, hn, hv, JsNum.ltInt, JsNum.gtInt, JsNum.toRat]
        | negInf =>
          simp [validateParameter, hbe, hn, hv, JsNum.ltInt, JsNum.gtInt, JsNum.toRat]
  · intro st
    exact lookupEntry_upsertKey st.validationErrors "NEWVAL" "Min value: 0"

/-- C7 counterexample: in a zero-parameter scenario, a step that does not
expect a reply (`waitBit = false`) but declares an expected-response id
emits two log entries (host→equipment plus the equipment→host
acknowledgement), not exactly one. -/
theorem C7_counterexample :
    noWaitStep.messageToSend.waitBit = false ∧
    noWaitScenario.parameters = none ∧
    (runScenarioResult MOCK_RESPONSES [] noWaitScenario).records.map
      (fun r => r.logs.length) = [2] := ⟨rfl, rfl, rfl⟩

/-- C7 amended: for an executed step that does not hit the T3 branch:
exactly one host→equipment entry is always emitted; one equipment→host
entry is added iff an expected-response id is declared (oracle hit or
generic fallback ack), regardless of the reply-expected flag; an error
entry is added iff no expected-response id is declared while a reply is
expected; and a step with reply-expected = false and no declared response
id emits exactly the single host entry. -/
theorem C7_step_log_pairs (mocks : List (String × Json)) (pv : List (String × String))
    (step : TestStep) (b : Json)
    (hres : resolveBody pv step.messageToSend.body = some b)
    (hnt : ¬ (step.messageToSend.waitBit = true ∧
        step.timeout.getD DEFAULT_TIMEOUT < step.simulateDelay.getD DEFAULT_SIMULATE_DELAY)) :
    (∀ er payload, step.expectedResponseSxFy = some er → lookupEntry mocks er = some payload →
      (runStep mocks pv step).logs =
        [hostLogEntry step.messageToSend b, responseLogEntry er payload]) ∧
    (∀ er, step.expectedResponseSxFy = some er → lookupEntry mocks er = none →
      (runStep mocks pv step).logs =
        [hostLogEntry step.messageToSend b, fallbackAckEntry er]) ∧
    (step.expectedResponseSxFy = none → step.messageToSend.waitBit = true →
      (runStep mocks pv step).logs =
        [hostLogEntry step.messageToSend b, noMockLogEntry step.messageToSend]) ∧
    (step.expectedResponseSxFy = none → step.messageToSend.waitBit = false →
      (runStep mocks pv step).logs = [hostLogEntry step.messageToSend b]) ∧
    (hostLogEntry step.messageToSend b).direction = MessageDirection.hostToEqp := by
  refine ⟨?_, ?_, ?_, ?_, rfl⟩
  · intro er payload her hpay
    simp only [runStep, hres]
    rw [if_neg hnt]
    simp [her, hpay]
  · intro er her hnone
    simp only [runStep, hres]
    rw [if_neg hnt]
    simp [her, hnone]
  · intro hnone hw
    simp only [runStep, hres]
    rw [if_neg hnt]
    simp [hnone, hw]
  · intro hnone hw
    simp only [runStep, hres]
    rw [if_neg hnt]
    simp [hnone, hw]

theorem C7_step_log_pairs_witness :
    (runStep MOCK_RESPONSES [] (e142ObjServices.steps.getD 0 noWaitStep)).logs =
      [hostLogEntry (e142ObjServices.steps.getD 0 noWaitStep).messageToSend
        (Json.obj [("OBJID", Json.str "\x7b\x7bOBJID\x7d\x7d"),
          ("OBJTYPE", Json.str "SubstrateMap"),
          ("ATTRID", Json.arr [Json.str "\x7b\x7bATTRID\x7d\x7d"])]),
       responseLogEntry "S14F2" (Json.obj [("OBJID", Json.str "WaferMap_01"),
         ("ATTRID", Json.arr [Json.str "BinMap"]),
         ("ATTRDATA", Json.arr [Json.str "001001001"])])] :=
  (C7_step_log_pairs MOCK_RESPONSES [] (e142ObjServices.steps.getD 0 noWaitStep) _
      rfl (by decide)).1 "S14F2" _ rfl rfl

/-- C8 counterexample: the verdict of a run of the catalog's
"E9: Establish Communications" scenario records the scenario's title as its
identifier, which differs from the scenario's id field. -/
theorem C8_counterexample :
    (runScenarioResult MOCK_RESPONSES [] e9CommEst).result.scenarioId =
      "E9: Establish Communications" ∧
    e9CommEst.id = "e9-comm-est" ∧
    (runScenarioResult MOCK_RESPONSES [] e9CommEst).result.scenarioId ≠ e9CommEst.id :=
  ⟨rfl, rfl, by decide⟩

/-- C8 amended: every completed (non-blocked) run prepends to the history a
verdict carrying the executed scenario's title as its identifier, the
aggregated passed flag, and the fixed explanatory notes text (the
wall-clock timestamp also stored in the source is outside the model). -/
theorem C8_amended (st : AppState) (scenario : TestScenario)
    (hv : st.validationErrors = []) :
    (runScenario st scenario).results =
      { scenarioId := scenario.title
        passed := (runScenarioResult MOCK_RESPONSES st.paramValues scenario).passed
        notes :=
          if (runScenarioResult MOCK_RESPONSES st.paramValues scenario).passed then
            "All steps completed successfully."
          else "Scenario failed due to errors or timeouts." } :: st.results := by
  unfold runScenario
  rw [if_pos (by rw [hv]; rfl)]
  rfl

theorem C8_amended_witness :
    (runScenario emptyStartState e9CommEst).results =
      [{ scenarioId := e9CommEst.title,
         passed := (runScenarioResult MOCK_RESPONSES [] e9CommEst).passed,
         notes :=
           if (runScenarioResult MOCK_RESPONSES [] e9CommEst).passed then
             "All steps completed successfully."
           else "Scenario failed due to errors or timeouts." }] :=
  C8_amended emptyStartState e9CommEst rfl

/-- C9: a parameter map every entry of which passes validation — including
the string-typed OBJID whose value contains a double quote — still breaks
body resolution: the textual substitution produces unparseable text, so the
run aborts at step one with a template-parse error log even though every
parameter was reported valid. -/
theorem C9_valid_params_can_break_resolution :
    validateParameter objidParam "X\"" = none ∧
    validateParameter attridParam "BinMap" = none ∧
    validateParameter newvalParam "100" = none ∧
    resolveBody [("OBJID", "X\""), ("ATTRID", "BinMap"), ("NEWVAL", "100")]
      ((e142ObjServices.steps.getD 0 noWaitStep).messageToSend.body) = none ∧
    (runScenarioResult MOCK_RESPONSES [("OBJID", "X\""), ("ATTRID", "BinMap"), ("NEWVAL", "100")]
      e142ObjServices).records.map (fun r => r.logs) =
        [[malformedLogEntry "Get Attribute (S14F1)"]] ∧
    (runScenarioResult MOCK_RESPONSES [("OBJID", "X\""), ("ATTRID", "BinMap"), ("NEWVAL", "100")]
      e142ObjServices).records.map (fun r => isMalformed r.outcome) = [true] ∧
    (runScenarioResult MOCK_RESPONSES [("OBJID", "X\""), ("ATTRID", "BinMap"), ("NEWVAL", "100")]
      e142ObjServices).passed = false ∧
    e142ObjServices.steps.length = 3 := ⟨rfl, rfl, rfl, rfl, rfl, rfl, rfl, rfl⟩

/-- C10: the bulk-clear operation empties the transcript and the verdict
history together from any state; and no reachable state pairs an empty
transcript with a non-empty verdict history, so no sequence of exposed
operations clears the transcript while retaining the history. -/
theorem reachable_logs_results (st : AppState) (hr : Reachable st) :
    st.logs = [] → st.results = [] := by
  induction hr with
  | init catalog => intro _; rfl
  | @step s op hr ih =>
    cases op with
    | select sc => intro h; exact ih h
    | paramChange p v =>
      intro h
      cases hval : validateParameter p v with
      | some e =>
        simp only [appStep, handleParamChange, hval] at h ⊢
        exact ih h
      | none =>
        simp only [appStep, handleParamChange, hval] at h ⊢
        exact ih h
    | run sc =>
      intro h
      exfalso
      by_cases hv : s.validationErrors = []
      · simp [appStep, runScenario, hv, runScenarioResult] at h
      · simp [appStep, runScenario, hv] at h
    | clear => intro _; rfl
    | importCatalog raw =>
      intro h
      exfalso
      cases hp : Json.parse raw with
      | none => simp [appStep, handleImportScenarios, hp] at h
      | some j => cases j <;> simp [appStep, handleImportScenarios, hp] at h
    | exportCatalog =>
      intro h
      exfalso
      simp [appStep] at h

theorem C10_bulk_clear (st : AppState) (hr : Reachable st) :
    (appStep st AppOp.clear).logs = [] ∧
    (appStep st AppOp.clear).results = [] ∧
    (st.logs = [] → st.results = []) :=
  ⟨rfl, rfl, reachable_logs_results st hr⟩

theorem C10_bulk_clear_witness :
    (appStep (appStep emptyStartState AppOp.exportCatalog) AppOp.clear).logs = [] ∧
    (appStep (appStep emptyStartState AppOp.exportCatalog) AppOp.clear).results = [] ∧
    ((appStep emptyStartState AppOp.exportCatalog).logs = [] →
      (appStep emptyStartState AppOp.exportCatalog).results = []) :=
  C10_bulk_clear (appStep emptyStartState AppOp.exportCatalog)
    (Reachable.step AppOp.exportCatalog (Reachable.init []))
